import Mathlib

/-!
Verification development for the getsticky context-graph store.

Shallow embedding of the persistence subsystem:
- `SQLiteDB`   : the Structured Store (class `SQLiteDB`, src/getsticky-app/src/components/CommentSidebar.tsx).
- `LanceDB`    : the Semantic Index (class `LanceDBManager`, src/unnamed/part_005).
- `DBM`        : the event-emitting Graph Manager (class `DatabaseManager`, src/unnamed/part_010).
- `DBP`        : the plain Graph Manager (class `DatabaseManager`, src/unnamed/part_012).

Modelling conventions:
- SQLite tables are lists of row structures inside `Store`; rows are appended
  in insertion order.  SQL `ORDER BY created_at` clauses on read paths are not
  modelled (lists come back in insertion order); no claim depends on them.
- `DATETIME DEFAULT CURRENT_TIMESTAMP` columns are modelled by a monotone
  `clock : Nat` inside the store that each write stamps and bumps.
- Thrown JS exceptions (better-sqlite3 constraint errors, `new Error(...)`)
  are modelled as `Except.error` carrying the message string.  A thrown
  statement performs no write, so `Except.error` produces no new store.
- The OpenAI embedding call is modelled as an explicit oracle
  `Emb := String → Except String (List Int)` so that provider failures can be
  expressed; vector components are integers (no claim computes with the
  actual float values).
- LanceDB connection/table lazy initialization (`if (!this.table) await this.init()`)
  is connection management and is not modelled; the rows of the `contexts`
  table are modelled directly.
-/

set_option linter.unusedVariables false

namespace GetSticky

/-- JS string-or-default: `s || d` on an optional string ("" and undefined/null are falsy). -/
def strOr (s : Option String) (d : String) : String :=
  match s with
  | none => d
  | some s => if s = "" then d else s

/-- JS `s || null` on an optional string: collapses the empty string to null. -/
def strOrNull (s : Option String) : Option String :=
  match s with
  | none => none
  | some s => if s = "" then none else some s

/-- A row of the `nodes` table. -/
structure Node where
  id : String
  type : String
  content : String
  context : String
  parent_id : Option String
  board_id : String
  created_at : Nat
  updated_at : Nat
deriving Repr, DecidableEq

/-- A row of the `edges` table. -/
structure Edge where
  id : String
  source_id : String
  target_id : String
  label : Option String
deriving Repr, DecidableEq

/-- A row of the `context_chain` table (the `embedding BLOB` column is always
null in every modelled flow and is omitted). -/
structure ChainEntry where
  rowid : Nat
  node_id : String
  context_entry : String
  source : String
deriving Repr, DecidableEq

/-- A row of the `boards` table (viewport REAL columns modelled as integers;
no claim performs arithmetic on them). -/
structure Board where
  id : String
  name : String
  slug : String
  project_id : String
  viewport_x : Option Int
  viewport_y : Option Int
  viewport_zoom : Option Int
  created_at : Nat
  updated_at : Nat
deriving Repr, DecidableEq

/-- A row of the `projects` table. -/
structure Project where
  id : String
  name : String
  created_at : Nat
  updated_at : Nat
deriving Repr, DecidableEq

/-- The whole SQLite database state.  `nextChainId` models the AUTOINCREMENT
counter of `context_chain`; `clock` models CURRENT_TIMESTAMP. -/
structure Store where
  nodes : List Node
  edges : List Edge
  chain : List ChainEntry
  boards : List Board
  projects : List Project
  settings : List (String × String)
  nextChainId : Nat
  clock : Nat
deriving Repr, DecidableEq

/-- The state `initSchema` leaves a fresh database in: empty tables plus the
seeded default project and default board (whose slug/project_id the migration
sets to 'main'/'default'). -/
def initialStore : Store :=
  { nodes := [], edges := [], chain := []
    boards := [{ id := "default", name := "Default Board", slug := "main",
                 project_id := "default", viewport_x := none, viewport_y := none,
                 viewport_zoom := none, created_at := 0, updated_at := 0 }]
    projects := [{ id := "default", name := "Default Project", created_at := 0, updated_at := 0 }]
    settings := [], nextChainId := 1, clock := 0 }

namespace SQLiteDB

/-- Argument record of `SQLiteDB.createNode` (`Omit<Node, 'created_at' | 'updated_at'>`). -/
structure NodeSpec where
  id : String
  type : String
  content : String
  context : String
  parent_id : Option String
  board_id : String
deriving Repr, DecidableEq

/-- `getNode(id)`: `SELECT * FROM nodes WHERE id = ?`. -/
def getNode (s : Store) (id : String) : Option Node :=
  s.nodes.find? (fun n => n.id = id)

/-- `createNode(node)`: INSERT with PRIMARY KEY check on `id` and the
`parent_id REFERENCES nodes(id)` foreign key (`foreign_keys = ON`); `board_id`
has no foreign key.  `node.context || ''` is the identity on strings and
`node.board_id || 'default'` is `strOr`.  The source re-reads the inserted row
(`this.getNode(node.id)!`), which is the row just built since `id` was fresh. -/
def createNode (s : Store) (node : NodeSpec) : Except String (Store × Node) :=
  if (getNode s node.id).isSome then
    .error "UNIQUE constraint failed: nodes.id"
  else if (match node.parent_id with
           | some p => (getNode s p).isNone
           | none => false) then
    .error "FOREIGN KEY constraint failed"
  else
    let row : Node :=
      { id := node.id, type := node.type, content := node.content
        context := node.context
        parent_id := node.parent_id
        board_id := strOr (some node.board_id) "default"
        created_at := s.clock, updated_at := s.clock }
    .ok ({ s with nodes := s.nodes ++ [row], clock := s.clock + 1 }, row)

/-- `getAllNodes(boardId?)` (the `ORDER BY created_at DESC` is not modelled). -/
def getAllNodes (s : Store) (boardId : Option String) : List Node :=
  match boardId with
  | some b => s.nodes.filter (fun n => n.board_id = b)
  | none => s.nodes

/-- Update record of `SQLiteDB.updateNode`: the four fields the method reads
from its `Partial` argument. -/
structure NodeUpdates where
  content : Option String
  context : Option String
  type : Option String
  parent_id : Option (Option String)
deriving Repr, DecidableEq

/-- The row transformation one `UPDATE nodes SET ... , updated_at = CURRENT_TIMESTAMP` applies. -/
def applyUpdates (u : NodeUpdates) (now : Nat) (n : Node) : Node :=
  { n with
    content := u.content.getD n.content
    context := u.context.getD n.context
    type := u.type.getD n.type
    parent_id := match u.parent_id with | some p => p | none => n.parent_id
    updated_at := now }

/-- `updateNode(id, updates)`: returns current state when no field is given;
runs one UPDATE otherwise (0 rows affected when the id is missing); setting
`parent_id` to a nonexistent node violates the foreign key. -/
def updateNode (s : Store) (id : String) (u : NodeUpdates) :
    Except String (Store × Option Node) :=
  if u.content = none ∧ u.context = none ∧ u.type = none ∧ u.parent_id = none then
    .ok (s, getNode s id)
  else
    match getNode s id with
    | none => .ok (s, none)
    | some _ =>
      if (match u.parent_id with
          | some (some p) => (getNode s p).isNone
          | _ => false) then
        .error "FOREIGN KEY constraint failed"
      else
        let s' := { s with
          nodes := s.nodes.map (fun n => if n.id = id then applyUpdates u s.clock n else n)
          clock := s.clock + 1 }
        .ok (s', getNode s' id)

/-- `deleteNode(id)`: `DELETE FROM nodes WHERE id = ?` with the storage-level
cascades — edges referencing the node are deleted (`ON DELETE CASCADE`),
children's `parent_id` is set to null (`ON DELETE SET NULL`), its
`context_chain` rows are deleted (`ON DELETE CASCADE`); returns `changes > 0`. -/
def deleteNode (s : Store) (id : String) : Store × Bool :=
  match getNode s id with
  | none => (s, false)
  | some _ =>
    let s' := { s with
      nodes := (s.nodes.filter (fun n => n.id ≠ id)).map
        (fun n => if n.parent_id = some id then { n with parent_id := none } else n)
      edges := s.edges.filter (fun e => e.source_id ≠ id ∧ e.target_id ≠ id)
      chain := s.chain.filter (fun en => en.node_id ≠ id) }
    (s', true)

/-- `createEdge(edge)`: INSERT with PRIMARY KEY check and foreign keys on both
endpoints; returns the argument edge. -/
def createEdge (s : Store) (e : Edge) : Except String (Store × Edge) :=
  if (s.edges.find? (fun x => x.id = e.id)).isSome then
    .error "UNIQUE constraint failed: edges.id"
  else if (getNode s e.source_id).isNone ∨ (getNode s e.target_id).isNone then
    .error "FOREIGN KEY constraint failed"
  else
    .ok ({ s with edges := s.edges ++ [e] }, e)

/-- `getEdge(id)`. -/
def getEdge (s : Store) (id : String) : Option Edge :=
  s.edges.find? (fun e => e.id = id)

/-- `getEdgesForNode(nodeId)`. -/
def getEdgesForNode (s : Store) (nodeId : String) : List Edge × List Edge :=
  (s.edges.filter (fun e => e.target_id = nodeId),
   s.edges.filter (fun e => e.source_id = nodeId))

/-- `getAllEdges(boardId?)`: the filtered form joins each edge's source node
to restrict by board. -/
def getAllEdges (s : Store) (boardId : Option String) : List Edge :=
  match boardId with
  | some b => s.edges.filter (fun e =>
      match getNode s e.source_id with
      | some n => n.board_id = b
      | none => false)
  | none => s.edges

/-- `deleteEdge(id)`: returns `changes > 0`. -/
def deleteEdge (s : Store) (id : String) : Store × Bool :=
  if (getEdge s id).isSome then
    ({ s with edges := s.edges.filter (fun e => e.id ≠ id) }, true)
  else (s, false)

/-- Argument record of `addContextEntry` (the `embedding` field is always null
in every modelled caller). -/
structure ChainEntrySpec where
  node_id : String
  context_entry : String
  source : String
deriving Repr, DecidableEq

/-- `addContextEntry(entry)`: INSERT into `context_chain`; `node_id` has a
foreign key to `nodes`. -/
def addContextEntry (s : Store) (entry : ChainEntrySpec) : Except String Store :=
  if (getNode s entry.node_id).isNone then
    .error "FOREIGN KEY constraint failed"
  else
    .ok { s with
      chain := s.chain ++ [{ rowid := s.nextChainId, node_id := entry.node_id,
                             context_entry := entry.context_entry, source := entry.source }]
      nextChainId := s.nextChainId + 1 }

/-- `getContextForNode(nodeId)` of the SQLite layer: the node's audit-trail
rows in insertion (creation-time) order. -/
def getContextForNode (s : Store) (nodeId : String) : List ChainEntry :=
  s.chain.filter (fun en => en.node_id = nodeId)

/-- The `while (currentNode && !visited.has(currentNode.id))` loop of
`getInheritedContext`, with explicit fuel.  Each iteration marks the current
node visited, unshifts its (non-empty) `context` onto the accumulator and
follows `parent_id` when truthy.  `getInheritedContext` supplies fuel
`s.nodes.length + 1`, which the development proves is always enough
(`walkChain_fuel_stable`). -/
def walkChain (s : Store) : Nat → List String → List String → Option Node → List String
  | 0, _, ctxs, _ => ctxs
  | _ + 1, _, ctxs, none => ctxs
  | fuel + 1, visited, ctxs, some cur =>
    if cur.id ∈ visited then ctxs
    else
      walkChain s fuel (cur.id :: visited)
        (if cur.context = "" then ctxs else cur.context :: ctxs)
        (match strOrNull cur.parent_id with
         | some p => getNode s p
         | none => none)

/-- `getInheritedContext(nodeId)`: returns the node's own context when it has
no (truthy) parent; otherwise walks the parent chain with a visited-set,
collecting non-empty contexts root-first, and joins them with a blank line. -/
def getInheritedContext (s : Store) (nodeId : String) : String :=
  match getNode s nodeId with
  | none => ""
  | some node =>
    if strOrNull node.parent_id = none then node.context
    else String.intercalate "\n\n" (walkChain s (s.nodes.length + 1) [] [] (some node))

/-- Argument record of `branchNode`. -/
structure BranchSpec where
  id : String
  type : String
  content : String
deriving Repr, DecidableEq

/-- `branchNode(parentId, newNodeData)`: null when the parent does not exist;
otherwise creates the child seeded with `getInheritedContext(parentId)`,
`parent_id = parentId` and the parent's `board_id`. -/
def branchNode (s : Store) (parentId : String) (newNodeData : BranchSpec) :
    Except String (Store × Option Node) :=
  match getNode s parentId with
  | none => .ok (s, none)
  | some parent =>
    let inheritedContext := getInheritedContext s parentId
    match createNode s { id := newNodeData.id, type := newNodeData.type,
                         content := newNodeData.content, context := inheritedContext,
                         parent_id := some parentId, board_id := parent.board_id } with
    | .error e => .error e
    | .ok (s', n) => .ok (s', some n)

/-- `getChildNodes(parentId)`. -/
def getChildNodes (s : Store) (parentId : String) : List Node :=
  s.nodes.filter (fun n => n.parent_id = some parentId)

/-- `getProject(id)`. -/
def getProject (s : Store) (id : String) : Option Project :=
  s.projects.find? (fun p => p.id = id)

/-- `createProject(id, name)`. -/
def createProject (s : Store) (id name : String) : Except String (Store × Project) :=
  if (getProject s id).isSome then
    .error "UNIQUE constraint failed: projects.id"
  else
    let row : Project := { id := id, name := name, created_at := s.clock, updated_at := s.clock }
    .ok ({ s with projects := s.projects ++ [row], clock := s.clock + 1 }, row)

/-- `getBoard(id)`. -/
def getBoard (s : Store) (id : String) : Option Board :=
  s.boards.find? (fun b => b.id = id)

/-- `getAllBoards()` (ordering not modelled). -/
def getAllBoards (s : Store) : List Board :=
  s.boards

/-- `getBoardsForProject(projectId)` (ordering not modelled). -/
def getBoardsForProject (s : Store) (projectId : String) : List Board :=
  s.boards.filter (fun b => b.project_id = projectId)

/-- Whether a character survives slugification (`[a-z0-9]`). -/
def isSlugChar (c : Char) : Bool :=
  (decide ('a' ≤ c) && decide (c ≤ 'z')) ||
  (decide ('0' ≤ c) && decide (c ≤ '9'))

/-- `replace(/[^a-z0-9]+/g, '-')`: collapse each run of non-slug characters
to a single dash (the boolean tracks being inside such a run). -/
def collapseRuns (cs : List Char) : List Char :=
  ((cs.foldl (fun (acc : List Char × Bool) c =>
      if isSlugChar c then (c :: acc.1, false)
      else if acc.2 then acc
      else (Char.ofNat 45 :: acc.1, true)) ([], false)).1).reverse

/-- The slug computation of `createBoard`:
`name.toLowerCase().replace(/[^a-z0-9]+/g, '-').replace(/^-|-$/g, '')`
(the second regex strips one leading and one trailing dash). -/
def slugify (name : String) : String :=
  let collapsed := collapseRuns name.toLower.toList
  let noLead := match collapsed with
    | c :: t => if c = Char.ofNat 45 then t else collapsed
    | [] => []
  let noTrail := match noLead.reverse with
    | c :: t => if c = Char.ofNat 45 then t.reverse else noLead
    | [] => []
  String.mk noTrail

/-- `createBoard(id, name, projectId = 'default', slug?)`: slug falls back to
the slugified name and then to the id; PRIMARY KEY on `id` and the unique
index on `(project_id, slug)` are enforced. -/
def createBoard (s : Store) (id name projectId : String) (slug : Option String) :
    Except String (Store × Board) :=
  let boardSlug :=
    match strOrNull slug with
    | some sl => sl
    | none => if slugify name = "" then id else slugify name
  if (getBoard s id).isSome then
    .error "UNIQUE constraint failed: boards.id"
  else if (s.boards.find? (fun b => b.project_id = projectId ∧ b.slug = boardSlug)).isSome then
    .error "UNIQUE constraint failed: boards.project_id, boards.slug"
  else
    let row : Board := { id := id, name := name, slug := boardSlug, project_id := projectId,
                         viewport_x := none, viewport_y := none, viewport_zoom := none,
                         created_at := s.clock, updated_at := s.clock }
    .ok ({ s with boards := s.boards ++ [row], clock := s.clock + 1 }, row)

/-- `updateBoardViewport(boardId, x, y, zoom)`. -/
def updateBoardViewport (s : Store) (boardId : String) (x y zoom : Int) : Store :=
  { s with
    boards := s.boards.map (fun b =>
      if b.id = boardId then
        { b with viewport_x := some x, viewport_y := some y, viewport_zoom := some zoom,
                 updated_at := s.clock }
      else b)
    clock := s.clock + 1 }

/-- `getBoardViewport(boardId)`: null unless all three columns are set. -/
def getBoardViewport (s : Store) (boardId : String) : Option (Int × Int × Int) :=
  match getBoard s boardId with
  | none => none
  | some b =>
    match b.viewport_x, b.viewport_y, b.viewport_zoom with
    | some x, some y, some z => some (x, y, z)
    | _, _, _ => none

/-- The per-board cleanup body shared by `deleteBoard` and `deleteProject`'s
loop: delete the board's nodes' `context_chain` rows, then edges touching the
board's nodes, then the nodes themselves (whose deletion sets surviving
children's `parent_id` to null via `ON DELETE SET NULL`). -/
def deleteBoardData (s : Store) (id : String) : Store :=
  let bNodeIds := (s.nodes.filter (fun n => n.board_id = id)).map (fun n => n.id)
  { s with
    chain := s.chain.filter (fun en => en.node_id ∉ bNodeIds)
    edges := s.edges.filter (fun e => e.source_id ∉ bNodeIds ∧ e.target_id ∉ bNodeIds)
    nodes := (s.nodes.filter (fun n => n.board_id ≠ id)).map (fun n =>
      match n.parent_id with
      | some p => if p ∈ bNodeIds then { n with parent_id := none } else n
      | none => n) }

/-- `deleteBoard(id)`: throws on the default board; false when the board does
not exist; otherwise one transaction removing context entries, edges, nodes
and the board row. -/
def deleteBoard (s : Store) (id : String) : Except String (Store × Bool) :=
  if id = "default" then
    .error "Cannot delete the default board"
  else
    match getBoard s id with
    | none => .ok (s, false)
    | some _ =>
      let s' := deleteBoardData s id
      .ok ({ s' with boards := s'.boards.filter (fun b => b.id ≠ id) }, true)

/-- `deleteProject(id)`: throws on the default project; false when the project
does not exist; otherwise one transaction applying the board cleanup to every
board of the project, then deleting the project's board rows and the project
row. -/
def deleteProject (s : Store) (id : String) : Except String (Store × Bool) :=
  if id = "default" then
    .error "Cannot delete the default project"
  else
    match getProject s id with
    | none => .ok (s, false)
    | some _ =>
      let boardIds := (getBoardsForProject s id).map (fun b => b.id)
      let s' := boardIds.foldl deleteBoardData s
      .ok ({ s' with
              boards := s'.boards.filter (fun b => b.project_id ≠ id)
              projects := s'.projects.filter (fun p => p.id ≠ id) }, true)

/-- `getSetting(key)`. -/
def getSetting (s : Store) (key : String) : Option String :=
  (s.settings.find? (fun kv => kv.1 = key)).map (fun kv => kv.2)

/-- `setSetting(key, value)`: INSERT .. ON CONFLICT DO UPDATE (upsert). -/
def setSetting (s : Store) (key value : String) : Store :=
  if (s.settings.find? (fun kv => kv.1 = key)).isSome then
    { s with settings := s.settings.map (fun kv => if kv.1 = key then (key, value) else kv) }
  else
    { s with settings := s.settings ++ [(key, value)] }

/-- `getAllSettings()` as an association list. -/
def getAllSettings (s : Store) : List (String × String) :=
  s.settings

end SQLiteDB

/-- A row of the LanceDB `contexts` table (the `vector` column's float
components are modelled as integers; `createdAt` via the lance clock). -/
structure VectorCtx where
  nodeId : String
  boardId : String
  text : String
  vector : List Int
  source : String
  createdAt : Nat
deriving Repr, DecidableEq

/-- The Semantic Index state: `enabled` is `!!apiKey` fixed at construction;
`rows` is the `contexts` table. -/
structure LanceState where
  enabled : Bool
  rows : List VectorCtx
  clock : Nat
deriving Repr, DecidableEq

/-- The external embedding provider (`openai.embeddings.create`), as an
oracle that may fail. -/
def Emb : Type := String → Except String (List Int)

namespace LanceDB

/-- Argument record of `LanceDBManager.addContext`. -/
structure CtxSpec where
  nodeId : String
  boardId : Option String
  text : String
  source : String
deriving Repr, DecidableEq

/-- `generateEmbedding(text)`: throws when the index is disabled; otherwise
calls the provider (whose failure is rethrown). -/
def generateEmbedding (emb : Emb) (l : LanceState) (text : String) : Except String (List Int) :=
  if l.enabled = false then .error "LanceDB is disabled - OPENAI_API_KEY not set"
  else emb text

/-- `addContext(context)`: silently skips when disabled; otherwise embeds the
text (propagating provider failures) and appends the row, defaulting
`boardId` to 'default'. -/
def addContext (emb : Emb) (l : LanceState) (c : CtxSpec) : Except String LanceState :=
  if l.enabled = false then .ok l
  else
    match generateEmbedding emb l c.text with
    | .error e => .error e
    | .ok v =>
      .ok { l with
        rows := l.rows ++ [{ nodeId := c.nodeId, boardId := strOr c.boardId "default",
                             text := c.text, vector := v, source := c.source,
                             createdAt := l.clock }]
        clock := l.clock + 1 }

/-- Squared L2 distance between vectors (lancedb's default metric). -/
def dist2 (v w : List Int) : Int :=
  (List.zipWith (fun a b => (a - b) * (a - b)) v w).sum

/-- Stable ascending insertion by distance, modelling the vector search's
nearest-first ordering. -/
def insertByDist (x : Int × VectorCtx) : List (Int × VectorCtx) → List (Int × VectorCtx)
  | [] => [x]
  | y :: ys => if x.1 < y.1 then x :: y :: ys else y :: insertByDist x ys

/-- Nearest-first list of scored rows. -/
def rankByDist (qv : List Int) (rows : List VectorCtx) : List VectorCtx :=
  ((rows.map (fun r => (dist2 qv r.vector, r))).foldr insertByDist []).map (fun p => p.2)

/-- `search(query, limit, boardId?)`: empty when disabled; otherwise embeds
the query and returns up to `limit` nearest rows, optionally filtered to one
board. -/
def search (emb : Emb) (l : LanceState) (query : String) (limit : Nat)
    (boardId : Option String) : Except String (List VectorCtx) :=
  if l.enabled = false then .ok []
  else
    match generateEmbedding emb l query with
    | .error e => .error e
    | .ok qv =>
      let pool := match boardId with
        | some b => l.rows.filter (fun r => r.boardId = b)
        | none => l.rows
      .ok ((rankByDist qv pool).take limit)

/-- `searchInNode(nodeId, query, limit)`: same, filtered to one node. -/
def searchInNode (emb : Emb) (l : LanceState) (nodeId query : String) (limit : Nat) :
    Except String (List VectorCtx) :=
  if l.enabled = false then .ok []
  else
    match generateEmbedding emb l query with
    | .error e => .error e
    | .ok qv =>
      .ok ((rankByDist qv (l.rows.filter (fun r => r.nodeId = nodeId))).take limit)

/-- `getContextsForNode(nodeId)`: a pure filter read (empty when disabled). -/
def getContextsForNode (l : LanceState) (nodeId : String) : List VectorCtx :=
  if l.enabled = false then []
  else l.rows.filter (fun r => r.nodeId = nodeId)

/-- `deleteNodeContexts(nodeId)`: no-op when disabled; idempotent bulk delete. -/
def deleteNodeContexts (l : LanceState) (nodeId : String) : LanceState :=
  if l.enabled = false then l
  else { l with rows := l.rows.filter (fun r => r.nodeId ≠ nodeId) }

/-- `deleteBoardContexts(boardId)`: no-op when disabled; idempotent bulk delete. -/
def deleteBoardContexts (l : LanceState) (boardId : String) : LanceState :=
  if l.enabled = false then l
  else { l with rows := l.rows.filter (fun r => r.boardId ≠ boardId) }

end LanceDB

/-- Combined state of one `DatabaseManager`: its `SQLiteDB` and its
`LanceDBManager`. -/
structure DMState where
  sql : Store
  lance : LanceState
deriving Repr, DecidableEq

/-- The `data` component of a `NotificationPayload`. -/
inductive EventData where
  | node (n : Node)
  | edge (e : Edge)
  | board (b : Board)
  | idOnly (id : String)
  | contextAdded (node_id text source : String)
deriving Repr, DecidableEq

/-- One emitted `mutation` event: `{ event, data, boardId }`. -/
structure MutationEvent where
  event : String
  data : EventData
  boardId : String
deriving Repr, DecidableEq

/-- Argument record of `DatabaseManager.createNode` (optional fields defaulted
inside the method). -/
structure DMNodeSpec where
  id : String
  type : String
  content : String
  context : Option String
  parent_id : Option String
  board_id : Option String
deriving Repr, DecidableEq

/-- Argument record of `DatabaseManager.updateNode` (`content? context? type?`). -/
structure DMNodeUpdates where
  content : Option String
  context : Option String
  type : Option String
deriving Repr, DecidableEq

/-- The `SQLiteDB.updateNode` argument a `DatabaseManager.updateNode` call
passes down (no `parent_id` in its update type). -/
def DMNodeUpdates.toSql (u : DMNodeUpdates) : SQLiteDB.NodeUpdates :=
  { content := u.content, context := u.context, type := u.type, parent_id := none }

/-!
The event-emitting `DatabaseManager` of src/unnamed/part_010.  Each operation
returns its result, the final combined state (including the partial writes
preceding a thrown error, since JS exceptions do not roll back prior awaited
writes), and the list of emitted mutation events.
-/
namespace DBM

/-- `createNode(node)`: structured write, then semantic indexing of a truthy
`context` tagged source='user', then a single `node_created` emission. -/
def createNode (emb : Emb) (st : DMState) (node : DMNodeSpec) :
    Except String Node × DMState × List MutationEvent :=
  let boardId := strOr node.board_id "default"
  match SQLiteDB.createNode st.sql
      { id := node.id, type := node.type, content := node.content,
        context := strOr node.context "", parent_id := strOrNull node.parent_id,
        board_id := boardId } with
  | .error e => (.error e, st, [])
  | .ok (sql', createdNode) =>
    match strOrNull node.context with
    | some text =>
      match LanceDB.addContext emb st.lance
          { nodeId := node.id, boardId := some boardId, text := text, source := "user" } with
      | .error e => (.error e, { sql := sql', lance := st.lance }, [])
      | .ok lance' =>
        (.ok createdNode, { sql := sql', lance := lance' },
         [{ event := "node_created", data := .node createdNode, boardId := boardId }])
    | none =>
      (.ok createdNode, { sql := sql', lance := st.lance },
       [{ event := "node_created", data := .node createdNode, boardId := boardId }])

/-- `getNode(id)`. -/
def getNode (st : DMState) (id : String) : Option Node :=
  SQLiteDB.getNode st.sql id

/-- `getAllNodes(boardId?)`. -/
def getAllNodes (st : DMState) (boardId : Option String) : List Node :=
  SQLiteDB.getAllNodes st.sql boardId

/-- `updateNode(id, updates)`: structured write; when the update carries a
truthy context and the row existed, replace the node's semantic rows
(delete-then-re-add); emit `node_updated` only when the row existed. -/
def updateNode (emb : Emb) (st : DMState) (id : String) (updates : DMNodeUpdates) :
    Except String (Option Node) × DMState × List MutationEvent :=
  match SQLiteDB.updateNode st.sql id updates.toSql with
  | .error e => (.error e, st, [])
  | .ok (sql', found) =>
    match strOrNull updates.context, found with
    | some text, some n =>
      let oldContexts := LanceDB.getContextsForNode st.lance id
      let lance1 := if oldContexts.length > 0 then LanceDB.deleteNodeContexts st.lance id
                    else st.lance
      match LanceDB.addContext emb lance1
          { nodeId := id, boardId := none, text := text, source := "user" } with
      | .error e => (.error e, { sql := sql', lance := lance1 }, [])
      | .ok lance2 =>
        (.ok (some n), { sql := sql', lance := lance2 },
         [{ event := "node_updated", data := .node n, boardId := n.board_id }])
    | _, _ =>
      match found with
      | some n =>
        (.ok (some n), { sql := sql', lance := st.lance },
         [{ event := "node_updated", data := .node n, boardId := n.board_id }])
      | none => (.ok none, { sql := sql', lance := st.lance }, [])

/-- `deleteNode(id)`: looks the board up before deleting, clears the node's
semantic rows, deletes the row (with storage cascades), emits `node_deleted`
only when a row was removed. -/
def deleteNode (st : DMState) (id : String) : Bool × DMState × List MutationEvent :=
  let boardId := match SQLiteDB.getNode st.sql id with
    | some n => strOr (some n.board_id) "default"
    | none => "default"
  let lance' := LanceDB.deleteNodeContexts st.lance id
  let (sql', success) := SQLiteDB.deleteNode st.sql id
  (success, { sql := sql', lance := lance' },
   if success then [{ event := "node_deleted", data := .idOnly id, boardId := boardId }] else [])

/-- `createEdge(edge)`: structured write, then emits `edge_created` with the
board derived from the edge's source node. -/
def createEdge (st : DMState) (e : Edge) : Except String Edge × DMState × List MutationEvent :=
  match SQLiteDB.createEdge st.sql e with
  | .error err => (.error err, st, [])
  | .ok (sql', created) =>
    let boardId := match SQLiteDB.getNode sql' e.source_id with
      | some n => strOr (some n.board_id) "default"
      | none => "default"
    (.ok created, { sql := sql', lance := st.lance },
     [{ event := "edge_created", data := .edge created, boardId := boardId }])

/-- `getEdge(id)`. -/
def getEdge (st : DMState) (id : String) : Option Edge :=
  SQLiteDB.getEdge st.sql id

/-- `getEdgesForNode(nodeId)`. -/
def getEdgesForNode (st : DMState) (nodeId : String) : List Edge × List Edge :=
  SQLiteDB.getEdgesForNode st.sql nodeId

/-- `getAllEdges(boardId?)`. -/
def getAllEdges (st : DMState) (boardId : Option String) : List Edge :=
  SQLiteDB.getAllEdges st.sql boardId

/-- `deleteEdge(id)`: looks edge and source board up before deleting; emits
`edge_deleted` only when a row was removed. -/
def deleteEdge (st : DMState) (id : String) : Bool × DMState × List MutationEvent :=
  let boardId := match SQLiteDB.getEdge st.sql id with
    | some e =>
      match SQLiteDB.getNode st.sql e.source_id with
      | some n => strOr (some n.board_id) "default"
      | none => "default"
    | none => "default"
  let (sql', success) := SQLiteDB.deleteEdge st.sql id
  (success, { sql := sql', lance := st.lance },
   if success then [{ event := "edge_deleted", data := .idOnly id, boardId := boardId }] else [])

/-- `addContext(nodeId, text, source)`: appends to the audit trail, indexes
semantically, appends to the node's rolled-up `context` with a blank-line
separator, and emits `context_added`. -/
def addContext (emb : Emb) (st : DMState) (nodeId text source : String) :
    Except String Unit × DMState × List MutationEvent :=
  match SQLiteDB.addContextEntry st.sql
      { node_id := nodeId, context_entry := text, source := source } with
  | .error e => (.error e, st, [])
  | .ok sql1 =>
    match LanceDB.addContext emb st.lance
        { nodeId := nodeId, boardId := none, text := text, source := source } with
    | .error e => (.error e, { sql := sql1, lance := st.lance }, [])
    | .ok lance' =>
      match SQLiteDB.getNode sql1 nodeId with
      | some node =>
        let newContext := if node.context = "" then text else node.context ++ "\n\n" ++ text
        match SQLiteDB.updateNode sql1 nodeId
            { content := none, context := some newContext, type := none, parent_id := none } with
        | .error e => (.error e, { sql := sql1, lance := lance' }, [])
        | .ok (sql2, _) =>
          (.ok (), { sql := sql2, lance := lance' },
           [{ event := "context_added", data := .contextAdded nodeId text source,
              boardId := node.board_id }])
      | none => (.ok (), { sql := sql1, lance := lance' }, [])

/-- `getContextForNode(nodeId)`: the node's rolled-up context string. -/
def getContextForNode (st : DMState) (nodeId : String) : String :=
  match SQLiteDB.getNode st.sql nodeId with
  | some node => node.context
  | none => ""

/-- `getInheritedContext(nodeId)`: delegates to the structured store. -/
def getInheritedContext (st : DMState) (nodeId : String) : String :=
  SQLiteDB.getInheritedContext st.sql nodeId

/-- `searchContext(query, limit, boardId?)`. -/
def searchContext (emb : Emb) (st : DMState) (query : String) (limit : Nat)
    (boardId : Option String) : Except String (List VectorCtx) :=
  LanceDB.search emb st.lance query limit boardId

/-- `searchInNode(nodeId, query, limit)`. -/
def searchInNode (emb : Emb) (st : DMState) (nodeId query : String) (limit : Nat) :
    Except String (List VectorCtx) :=
  LanceDB.searchInNode emb st.lance nodeId query limit

/-- `branchNode(parentId, newNodeData)`: structured branch; a truthy child
context is indexed tagged source='agent'; emits `node_created` for the child
when it exists. -/
def branchNode (emb : Emb) (st : DMState) (parentId : String)
    (newNodeData : SQLiteDB.BranchSpec) :
    Except String (Option Node) × DMState × List MutationEvent :=
  match SQLiteDB.branchNode st.sql parentId newNodeData with
  | .error e => (.error e, st, [])
  | .ok (sql', childNode) =>
    match childNode with
    | some child =>
      if child.context ≠ "" then
        match LanceDB.addContext emb st.lance
            { nodeId := child.id, boardId := none, text := child.context,
              source := "agent" } with
        | .error e => (.error e, { sql := sql', lance := st.lance }, [])
        | .ok lance' =>
          (.ok (some child), { sql := sql', lance := lance' },
           [{ event := "node_created", data := .node child, boardId := child.board_id }])
      else
        (.ok (some child), { sql := sql', lance := st.lance },
         [{ event := "node_created", data := .node child, boardId := child.board_id }])
    | none => (.ok none, { sql := sql', lance := st.lance }, [])

/-- `getChildNodes(parentId)`. -/
def getChildNodes (st : DMState) (parentId : String) : List Node :=
  SQLiteDB.getChildNodes st.sql parentId

/-- The `while (currentNode && !visited.has(currentNode.id))` loop of
`getConversationPath`, with explicit fuel (same scheme as `walkChain`). -/
def pathWalk (s : Store) : Nat → List String → List Node → Option Node → List Node
  | 0, _, path, _ => path
  | _ + 1, _, path, none => path
  | fuel + 1, visited, path, some cur =>
    if cur.id ∈ visited then path
    else
      pathWalk s fuel (cur.id :: visited) (cur :: path)
        (match strOrNull cur.parent_id with
         | some p => SQLiteDB.getNode s p
         | none => none)

/-- `getConversationPath(nodeId)`: the root-first ancestor path with a
visited-set cycle guard. -/
def getConversationPath (st : DMState) (nodeId : String) : List Node :=
  pathWalk st.sql (st.sql.nodes.length + 1) [] [] (SQLiteDB.getNode st.sql nodeId)

/-- `createBoard(id, name)`: structured write then a `board_created` emission
scoped to the new board's id. -/
def createBoard (st : DMState) (id name : String) :
    Except String Board × DMState × List MutationEvent :=
  match SQLiteDB.createBoard st.sql id name "default" none with
  | .error e => (.error e, st, [])
  | .ok (sql', board) =>
    (.ok board, { sql := sql', lance := st.lance },
     [{ event := "board_created", data := .board board, boardId := id }])

/-- `getBoard(id)`. -/
def getBoard (st : DMState) (id : String) : Option Board :=
  SQLiteDB.getBoard st.sql id

/-- `getAllBoards()`. -/
def getAllBoards (st : DMState) : List Board :=
  SQLiteDB.getAllBoards st.sql

/-- `updateBoardViewport(boardId, x, y, zoom)`: delegation, no emission. -/
def updateBoardViewport (st : DMState) (boardId : String) (x y zoom : Int) :
    DMState × List MutationEvent :=
  ({ st with sql := SQLiteDB.updateBoardViewport st.sql boardId x y zoom }, [])

/-- `getBoardViewport(boardId)`. -/
def getBoardViewport (st : DMState) (boardId : String) : Option (Int × Int × Int) :=
  SQLiteDB.getBoardViewport st.sql boardId

/-- `deleteBoard(id)`: clears the board's semantic rows first, then the
structured cascade; emits `board_deleted` only on success.  When the
structured delete throws, the semantic deletion has already happened. -/
def deleteBoard (st : DMState) (id : String) :
    Except String Bool × DMState × List MutationEvent :=
  let lance' := LanceDB.deleteBoardContexts st.lance id
  match SQLiteDB.deleteBoard st.sql id with
  | .error e => (.error e, { sql := st.sql, lance := lance' }, [])
  | .ok (sql', success) =>
    (.ok success, { sql := sql', lance := lance' },
     if success then [{ event := "board_deleted", data := .idOnly id, boardId := id }] else [])

/-- `getSetting(key)`. -/
def getSetting (st : DMState) (key : String) : Option String :=
  SQLiteDB.getSetting st.sql key

/-- `setSetting(key, value)`: delegation, no emission. -/
def setSetting (st : DMState) (key value : String) : DMState × List MutationEvent :=
  ({ st with sql := SQLiteDB.setSetting st.sql key value }, [])

/-- `getAllSettings()`. -/
def getAllSettings (st : DMState) : List (String × String) :=
  SQLiteDB.getAllSettings st.sql

/-- `exportGraph(boardId?)`. -/
def exportGraph (st : DMState) (boardId : Option String) : List Node × List Edge :=
  (SQLiteDB.getAllNodes st.sql boardId, SQLiteDB.getAllEdges st.sql boardId)

end DBM

/-!
The plain `DatabaseManager` of src/unnamed/part_012: identical composition of
`SQLiteDB` and `LanceDBManager` but with no event emission (and without the
pre-delete board lookups that only feed events).
-/
namespace DBP

/-- `createNode(node)` (part_012). -/
def createNode (emb : Emb) (st : DMState) (node : DMNodeSpec) :
    Except String Node × DMState :=
  let boardId := strOr node.board_id "default"
  match SQLiteDB.createNode st.sql
      { id := node.id, type := node.type, content := node.content,
        context := strOr node.context "", parent_id := strOrNull node.parent_id,
        board_id := boardId } with
  | .error e => (.error e, st)
  | .ok (sql', createdNode) =>
    match strOrNull node.context with
    | some text =>
      match LanceDB.addContext emb st.lance
          { nodeId := node.id, boardId := some boardId, text := text, source := "user" } with
      | .error e => (.error e, { sql := sql', lance := st.lance })
      | .ok lance' => (.ok createdNode, { sql := sql', lance := lance' })
    | none => (.ok createdNode, { sql := sql', lance := st.lance })

/-- `getNode(id)` (part_012). -/
def getNode (st : DMState) (id : String) : Option Node :=
  SQLiteDB.getNode st.sql id

/-- `getAllNodes(boardId?)` (part_012). -/
def getAllNodes (st : DMState) (boardId : Option String) : List Node :=
  SQLiteDB.getAllNodes st.sql boardId

/-- `updateNode(id, updates)` (part_012). -/
def updateNode (emb : Emb) (st : DMState) (id : String) (updates : DMNodeUpdates) :
    Except String (Option Node) × DMState :=
  match SQLiteDB.updateNode st.sql id updates.toSql with
  | .error e => (.error e, st)
  | .ok (sql', found) =>
    match strOrNull updates.context, found with
    | some text, some _ =>
      let oldContexts := LanceDB.getContextsForNode st.lance id
      let lance1 := if oldContexts.length > 0 then LanceDB.deleteNodeContexts st.lance id
                    else st.lance
      match LanceDB.addContext emb lance1
          { nodeId := id, boardId := none, text := text, source := "user" } with
      | .error e => (.error e, { sql := sql', lance := lance1 })
      | .ok lance2 => (.ok found, { sql := sql', lance := lance2 })
    | _, _ => (.ok found, { sql := sql', lance := st.lance })

/-- `deleteNode(id)` (part_012): no board lookup, since nothing is emitted. -/
def deleteNode (st : DMState) (id : String) : Bool × DMState :=
  let lance' := LanceDB.deleteNodeContexts st.lance id
  let (sql', success) := SQLiteDB.deleteNode st.sql id
  (success, { sql := sql', lance := lance' })

/-- `createEdge(edge)` (part_012). -/
def createEdge (st : DMState) (e : Edge) : Except String Edge × DMState :=
  match SQLiteDB.createEdge st.sql e with
  | .error err => (.error err, st)
  | .ok (sql', created) => (.ok created, { sql := sql', lance := st.lance })

/-- `getEdge(id)` (part_012). -/
def getEdge (st : DMState) (id : String) : Option Edge :=
  SQLiteDB.getEdge st.sql id

/-- `getEdgesForNode(nodeId)` (part_012). -/
def getEdgesForNode (st : DMState) (nodeId : String) : List Edge × List Edge :=
  SQLiteDB.getEdgesForNode st.sql nodeId

/-- `getAllEdges(boardId?)` (part_012). -/
def getAllEdges (st : DMState) (boardId : Option String) : List Edge :=
  SQLiteDB.getAllEdges st.sql boardId

/-- `deleteEdge(id)` (part_012). -/
def deleteEdge (st : DMState) (id : String) : Bool × DMState :=
  let (sql', success) := SQLiteDB.deleteEdge st.sql id
  (success, { sql := sql', lance := st.lance })

/-- `addContext(nodeId, text, source)` (part_012). -/
def addContext (emb : Emb) (st : DMState) (nodeId text source : String) :
    Except String Unit × DMState :=
  match SQLiteDB.addContextEntry st.sql
      { node_id := nodeId, context_entry := text, source := source } with
  | .error e => (.error e, st)
  | .ok sql1 =>
    match LanceDB.addContext emb st.lance
        { nodeId := nodeId, boardId := none, text := text, source := source } with
    | .error e => (.error e, { sql := sql1, lance := st.lance })
    | .ok lance' =>
      match SQLiteDB.getNode sql1 nodeId with
      | some node =>
        let newContext := if node.context = "" then text else node.context ++ "\n\n" ++ text
        match SQLiteDB.updateNode sql1 nodeId
            { content := none, context := some newContext, type := none, parent_id := none } with
        | .error e => (.error e, { sql := sql1, lance := lance' })
        | .ok (sql2, _) => (.ok (), { sql := sql2, lance := lance' })
      | none => (.ok (), { sql := sql1, lance := lance' })

/-- `getContextForNode(nodeId)` (part_012). -/
def getContextForNode (st : DMState) (nodeId : String) : String :=
  match SQLiteDB.getNode st.sql nodeId with
  | some node => node.context
  | none => ""

/-- `getInheritedContext(nodeId)` (part_012). -/
def getInheritedContext (st : DMState) (nodeId : String) : String :=
  SQLiteDB.getInheritedContext st.sql nodeId

/-- `searchContext(query, limit, boardId?)` (part_012). -/
def searchContext (emb : Emb) (st : DMState) (query : String) (limit : Nat)
    (boardId : Option String) : Except String (List VectorCtx) :=
  LanceDB.search emb st.lance query limit boardId

/-- `searchInNode(nodeId, query, limit)` (part_012). -/
def searchInNode (emb : Emb) (st : DMState) (nodeId query : String) (limit : Nat) :
    Except String (List VectorCtx) :=
  LanceDB.searchInNode emb st.lance nodeId query limit

/-- `branchNode(parentId, newNodeData)` (part_012). -/
def branchNode (emb : Emb) (st : DMState) (parentId : String)
    (newNodeData : SQLiteDB.BranchSpec) :
    Except String (Option Node) × DMState :=
  match SQLiteDB.branchNode st.sql parentId newNodeData with
  | .error e => (.error e, st)
  | .ok (sql', childNode) =>
    match childNode with
    | some child =>
      if child.context ≠ "" then
        match LanceDB.addContext emb st.lance
            { nodeId := child.id, boardId := none, text := child.context,
              source := "agent" } with
        | .error e => (.error e, { sql := sql', lance := st.lance })
        | .ok lance' => (.ok (some child), { sql := sql', lance := lance' })
      else (.ok (some child), { sql := sql', lance := st.lance })
    | none => (.ok none, { sql := sql', lance := st.lance })

/-- `getChildNodes(parentId)` (part_012). -/
def getChildNodes (st : DMState) (parentId : String) : List Node :=
  SQLiteDB.getChildNodes st.sql parentId

/-- `getConversationPath(nodeId)` (part_012): the same visited-set loop. -/
def getConversationPath (st : DMState) (nodeId : String) : List Node :=
  DBM.pathWalk st.sql (st.sql.nodes.length + 1) [] [] (SQLiteDB.getNode st.sql nodeId)

/-- `createBoard(id, name)` (part_012). -/
def createBoard (st : DMState) (id name : String) : Except String Board × DMState :=
  match SQLiteDB.createBoard st.sql id name "default" none with
  | .error e => (.error e, st)
  | .ok (sql', board) => (.ok board, { sql := sql', lance := st.lance })

/-- `getBoard(id)` (part_012). -/
def getBoard (st : DMState) (id : String) : Option Board :=
  SQLiteDB.getBoard st.sql id

/-- `getAllBoards()` (part_012). -/
def getAllBoards (st : DMState) : List Board :=
  SQLiteDB.getAllBoards st.sql

/-- `updateBoardViewport(boardId, x, y, zoom)` (part_012). -/
def updateBoardViewport (st : DMState) (boardId : String) (x y zoom : Int) : DMState :=
  { st with sql := SQLiteDB.updateBoardViewport st.sql boardId x y zoom }

/-- `getBoardViewport(boardId)` (part_012). -/
def getBoardViewport (st : DMState) (boardId : String) : Option (Int × Int × Int) :=
  SQLiteDB.getBoardViewport st.sql boardId

/-- `deleteBoard(id)` (part_012). -/
def deleteBoard (st : DMState) (id : String) : Except String Bool × DMState :=
  let lance' := LanceDB.deleteBoardContexts st.lance id
  match SQLiteDB.deleteBoard st.sql id with
  | .error e => (.error e, { sql := st.sql, lance := lance' })
  | .ok (sql', success) => (.ok success, { sql := sql', lance := lance' })

/-- `getSetting(key)` (part_012). -/
def getSetting (st : DMState) (key : String) : Option String :=
  SQLiteDB.getSetting st.sql key

/-- `setSetting(key, value)` (part_012). -/
def setSetting (st : DMState) (key value : String) : DMState :=
  { st with sql := SQLiteDB.setSetting st.sql key value }

/-- `getAllSettings()` (part_012). -/
def getAllSettings (st : DMState) : List (String × String) :=
  SQLiteDB.getAllSettings st.sql

/-- `exportGraph(boardId?)` (part_012). -/
def exportGraph (st : DMState) (boardId : Option String) : List Node × List Edge :=
  (SQLiteDB.getAllNodes st.sql boardId, SQLiteDB.getAllEdges st.sql boardId)

end DBP

/-! Concrete fixtures used by the scenario theorems and witnesses. -/

/-- An embedding oracle whose provider call always raises. -/
def embUnavailable : Emb := fun _ => .error "embedding provider unavailable"

/-- A Semantic Index constructed without an API key (`enabled = false`). -/
def disabledLance : LanceState := { enabled := false, rows := [], clock := 0 }

/-- A Semantic Index constructed with an API key (`enabled = true`), empty. -/
def enabledLance : LanceState := { enabled := true, rows := [], clock := 0 }

/-- Convenience node-row builder for fixtures. -/
def mkNode (i bid : String) (p : Option String) (ctx : String) : Node :=
  { id := i, type := "conversation", content := "", context := ctx,
    parent_id := p, board_id := bid, created_at := 0, updated_at := 0 }

/-- Fresh manager state with the Semantic Index disabled. -/
def e2eState0 : DMState := { sql := initialStore, lance := disabledLance }

/-- End-to-end scenario, step 1: create node A with context "alpha". -/
def e2eState1 : DMState :=
  (DBM.createNode embUnavailable e2eState0
    { id := "A", type := "conversation", content := "", context := some "alpha",
      parent_id := none, board_id := none }).2.1

/-- End-to-end scenario, step 2: branch B from A. -/
def e2eState2 : DMState :=
  (DBM.branchNode embUnavailable e2eState1 "A"
    { id := "B", type := "conversation", content := "" }).2.1

/-- End-to-end scenario, step 3: addContext(B, "beta", "user"). -/
def e2eState3 : DMState :=
  (DBM.addContext embUnavailable e2eState2 "B" "beta" "user").2.1

/-- A store whose `parent_id` links form the 2-cycle X→Y→X. -/
def cycleStore : Store :=
  { initialStore with nodes := [mkNode "X" "default" (some "Y") "x-ctx",
                                mkNode "Y" "default" (some "X") "y-ctx"] }

/-- Manager state for the failed-embedding scenario: index enabled, empty. -/
def c8State : DMState := { sql := initialStore, lance := enabledLance }

/-- The createNode argument of the failed-embedding scenario. -/
def c8Spec : DMNodeSpec :=
  { id := "n1", type := "conversation", content := "", context := some "hello",
    parent_id := none, board_id := none }

/-- Witness store for the inheritance-ordering claim: chain r→a→b→c. -/
def c2Store : Store :=
  { initialStore with nodes := [mkNode "r" "default" none "R",
                                mkNode "a" "default" (some "r") "A",
                                mkNode "b" "default" (some "a") "B",
                                mkNode "c" "default" (some "b") "C"] }

/-- Witness store for the branch-snapshot claim: one parent P with context "P1". -/
def c4Store : Store := { initialStore with nodes := [mkNode "P" "default" none "P1"] }

/-- Witness board row for the cascade claim. -/
def c5Board : Board :=
  { id := "B", name := "B", slug := "b", project_id := "default",
    viewport_x := none, viewport_y := none, viewport_zoom := none,
    created_at := 0, updated_at := 0 }

/-- Witness edge for the cascade claim. -/
def c5Edge : Edge := { id := "E", source_id := "N1", target_id := "N2", label := none }

/-- Witness context-chain row for the cascade claim. -/
def c5Entry : ChainEntry :=
  { rowid := 1, node_id := "N1", context_entry := "note", source := "user" }

/-- Witness store for the cascade claim: board B with nodes N1, N2, an edge
N1→N2 and a context entry on N1, plus node D on the default board. -/
def c5Store : Store :=
  { initialStore with
    boards := initialStore.boards ++ [c5Board]
    nodes := [mkNode "N1" "B" none "c1", mkNode "N2" "B" none "c2",
              mkNode "D" "default" none "d"]
    edges := [c5Edge]
    chain := [c5Entry]
    nextChainId := 2 }

/-- Manager state for the event-emission witness. -/
def c7State : DMState := { sql := initialStore, lance := disabledLance }

/-- createNode argument of the event-emission witness. -/
def c7Spec : DMNodeSpec :=
  { id := "W", type := "conversation", content := "", context := none,
    parent_id := none, board_id := none }

/-- updateNode argument of the event-emission witness. -/
def c7Upd : DMNodeUpdates := { content := none, context := some "x", type := none }

/-! Helper lemmas about the embedding. -/

/-- A successful `getNode` returns a member row carrying the searched id. -/
theorem getNode_eq_some {s : Store} {i : String} {n : Node}
    (h : SQLiteDB.getNode s i = some n) : n ∈ s.nodes ∧ n.id = i := by
  refine ⟨List.mem_of_find?_eq_some h, ?_⟩
  have := List.find?_some h
  simpa using this

/-- Re-defaulting an already-defaulted board id is the identity. -/
theorem strOr_default_idem (x : Option String) :
    strOr (some (strOr x "default")) "default" = strOr x "default" := by
  cases x with
  | none => rfl
  | some s =>
    by_cases h : s = "" <;> simp [strOr, h]

/-- One-step unfolding of the walk on a present node. -/
theorem walkChain_succ_some (s : Store) (fuel : Nat) (visited ctxs : List String)
    (cur : Node) :
    SQLiteDB.walkChain s (fuel + 1) visited ctxs (some cur) =
      if cur.id ∈ visited then ctxs
      else SQLiteDB.walkChain s fuel (cur.id :: visited)
        (if cur.context = "" then ctxs else cur.context :: ctxs)
        (match strOrNull cur.parent_id with
         | some p => SQLiteDB.getNode s p
         | none => none) := rfl

/-- One-step unfolding of the walk on an absent node. -/
theorem walkChain_succ_none (s : Store) (fuel : Nat) (visited ctxs : List String) :
    SQLiteDB.walkChain s (fuel + 1) visited ctxs none = ctxs := rfl

/-- Growing the visited set cannot grow the unvisited row count. -/
theorem length_filter_visited_mono (l : List Node) (x : String) (visited : List String) :
    (l.filter (fun n => decide (n.id ∉ x :: visited))).length ≤
    (l.filter (fun n => decide (n.id ∉ visited))).length := by
  induction l with
  | nil => simp
  | cons a t ih =>
    rw [List.filter_cons, List.filter_cons]
    by_cases h : a.id ∈ x :: visited
    · rw [if_neg (by simp [h])]
      by_cases h2 : a.id ∈ visited
      · rw [if_neg (by simp [h2])]; exact ih
      · rw [if_pos (by simpa using h2)]
        exact Nat.le_succ_of_le ih
    · have h2 : a.id ∉ visited := fun hv => h (List.mem_cons_of_mem _ hv)
      rw [if_pos (by simpa using h), if_pos (by simpa using h2)]
      exact Nat.succ_le_succ ih

/-- Marking a row's id visited strictly shrinks the unvisited row count. -/
theorem length_filter_visited_lt {l : List Node} {x : String} {visited : List String}
    (hm : ∃ n ∈ l, n.id = x) (hx : x ∉ visited) :
    (l.filter (fun n => decide (n.id ∉ x :: visited))).length <
    (l.filter (fun n => decide (n.id ∉ visited))).length := by
  induction l with
  | nil => simp at hm
  | cons a t ih =>
    rcases hm with ⟨n, hn, hnx⟩
    rw [List.filter_cons, List.filter_cons]
    rcases List.mem_cons.mp hn with rfl | hnt
    · have ha1 : n.id ∈ x :: visited := by simp [hnx]
      have ha2 : n.id ∉ visited := hnx ▸ hx
      rw [if_neg (by simp [ha1]), if_pos (by simpa using ha2)]
      exact Nat.lt_succ_of_le (length_filter_visited_mono t x visited)
    · by_cases ha : a.id ∈ x :: visited
      · rw [if_neg (by simp [ha])]
        by_cases ha2 : a.id ∈ visited
        · rw [if_neg (by simp [ha2])]
          exact ih ⟨n, hnt, hnx⟩
        · rw [if_pos (by simpa using ha2)]
          exact Nat.lt_succ_of_lt (ih ⟨n, hnt, hnx⟩)
      · have ha2 : a.id ∉ visited := fun hv => ha (List.mem_cons_of_mem _ hv)
        rw [if_pos (by simpa using ha), if_pos (by simpa using ha2)]
        exact Nat.succ_lt_succ (ih ⟨n, hnt, hnx⟩)

/-- The walk's value does not depend on the fuel once the fuel exceeds the
number of unvisited store rows: the source's unbounded `while` loop
terminates within that bound with this common value. -/
theorem walkChain_congr (s : Store) :
    ∀ (fuel₁ fuel₂ : Nat) (visited ctxs : List String) (cur : Option Node),
      (∀ c, cur = some c → c ∈ s.nodes) →
      (s.nodes.filter (fun n => decide (n.id ∉ visited))).length < fuel₁ →
      (s.nodes.filter (fun n => decide (n.id ∉ visited))).length < fuel₂ →
      SQLiteDB.walkChain s fuel₁ visited ctxs cur =
      SQLiteDB.walkChain s fuel₂ visited ctxs cur := by
  intro fuel₁
  induction fuel₁ with
  | zero => intro fuel₂ visited ctxs cur _ h1 _; exact absurd h1 (Nat.not_lt_zero _)
  | succ f ih =>
    intro fuel₂ visited ctxs cur hcur h1 h2
    cases fuel₂ with
    | zero => exact absurd h2 (Nat.not_lt_zero _)
    | succ f₂ =>
      cases cur with
      | none => rfl
      | some c =>
        rw [walkChain_succ_some, walkChain_succ_some]
        by_cases hv : c.id ∈ visited
        · simp [hv]
        · simp only [if_neg hv]
          have hc := hcur c rfl
          have hlt := length_filter_visited_lt ⟨c, hc, rfl⟩ hv
          apply ih
          · intro d hd
            rcases hs : strOrNull c.parent_id with _ | p
            · rw [hs] at hd; simp at hd
            · rw [hs] at hd; simp at hd; exact (getNode_eq_some hd).1
          · omega
          · omega

/-- With the empty visited set the unvisited row count is the store size. -/
theorem length_filter_visited_nil (s : Store) :
    (s.nodes.filter (fun n => decide (n.id ∉ ([] : List String)))).length =
    s.nodes.length := by
  simp

/-- Any fuel beyond `s.nodes.length + 1` leaves the walk's value unchanged. -/
theorem getInheritedContext_fuel_stable (s : Store) (nodeId : String) (k : Nat) :
    SQLiteDB.walkChain s (s.nodes.length + 1 + k) [] [] (SQLiteDB.getNode s nodeId) =
    SQLiteDB.walkChain s (s.nodes.length + 1) [] [] (SQLiteDB.getNode s nodeId) := by
  apply walkChain_congr
  · intro c hc; exact (getNode_eq_some hc).1
  · rw [length_filter_visited_nil]; omega
  · rw [length_filter_visited_nil]; omega

/-- Everything a successful `createNode` guarantees about the returned row
and the new store. -/
theorem createNode_ok {s : Store} {spec : SQLiteDB.NodeSpec} {s' : Store} {n : Node}
    (h : SQLiteDB.createNode s spec = .ok (s', n)) :
    n.id = spec.id ∧ n.board_id = strOr (some spec.board_id) "default" ∧
    n.context = spec.context ∧ n.parent_id = spec.parent_id ∧
    s'.nodes = s.nodes ++ [n] ∧ SQLiteDB.getNode s spec.id = none := by
  unfold SQLiteDB.createNode at h
  split at h
  · simp at h
  · split at h
    · simp at h
    · rename_i h1 h2
      simp only [Except.ok.injEq, Prod.mk.injEq] at h
      obtain ⟨hs, hn⟩ := h
      subst hn
      refine ⟨rfl, rfl, rfl, rfl, by rw [← hs], ?_⟩
      simpa using h1

/-- Appending a row with the searched id to a store where that id was absent
makes `getNode` find exactly that row. -/
theorem getNode_append {s s' : Store} {row : Node} {i : String}
    (hs : s'.nodes = s.nodes ++ [row])
    (h : SQLiteDB.getNode s i = none) (hid : row.id = i) :
    SQLiteDB.getNode s' i = some row := by
  unfold SQLiteDB.getNode at *
  rw [hs, List.find?_append, h]
  simp [hid]

/-- Fully evaluated form of a `createNode` whose id is fresh and whose
foreign-key check passes. -/
theorem createNode_eq_ok (s : Store) (spec : SQLiteDB.NodeSpec)
    (hfresh : SQLiteDB.getNode s spec.id = none)
    (hfk : (match spec.parent_id with
            | some p => (SQLiteDB.getNode s p).isNone
            | none => false) = false) :
    ∃ row : Node,
      SQLiteDB.createNode s spec =
        .ok ({ s with nodes := s.nodes ++ [row], clock := s.clock + 1 }, row) ∧
      row.id = spec.id ∧ row.context = spec.context ∧
      row.parent_id = spec.parent_id ∧
      row.board_id = strOr (some spec.board_id) "default" := by
  refine ⟨{ id := spec.id, type := spec.type, content := spec.content, context := spec.context, parent_id := spec.parent_id, board_id := strOr (some spec.board_id) "default", created_at := s.clock, updated_at := s.clock }, ?_, rfl, rfl, rfl, rfl⟩
  unfold SQLiteDB.createNode
  rw [hfresh, hfk]
  rfl

/-- A row found in the left part of an appended node list is still found. -/
theorem getNode_append_found {s s' : Store} {row : Node}
    (hs : s'.nodes = s.nodes ++ [row]) {i : String} {n : Node}
    (h : SQLiteDB.getNode s i = some n) : SQLiteDB.getNode s' i = some n := by
  unfold SQLiteDB.getNode at *
  rw [hs, List.find?_append, h]
  rfl

/-- find? commutes with an id-preserving row transformation. -/
theorem find?_map_id_pres (l : List Node) (f : Node → Node)
    (hf : ∀ n, (f n).id = n.id) (i : String) :
    List.find? (fun n => n.id = i) (l.map f) =
      (List.find? (fun n => n.id = i) l).map f := by
  rw [List.find?_map]
  have hp : ((fun n => decide (n.id = i)) ∘ f) = (fun n => decide (n.id = i)) := by
    funext n
    simp [Function.comp, hf]
  rw [hp]

/-- `updateNode` on one id leaves `getNode` on any other id unchanged. -/
theorem getNode_updateNode_other {s s' : Store} {id cid : String}
    {u : SQLiteDB.NodeUpdates} {res : Option Node}
    (h : SQLiteDB.updateNode s id u = .ok (s', res)) (hne : cid ≠ id) :
    SQLiteDB.getNode s' cid = SQLiteDB.getNode s cid := by
  unfold SQLiteDB.updateNode at h
  split at h
  · simp only [Except.ok.injEq, Prod.mk.injEq] at h
    rw [← h.1]
  · split at h
    · simp only [Except.ok.injEq, Prod.mk.injEq] at h
      rw [← h.1]
    · split at h
      · simp at h
      · simp only [Except.ok.injEq, Prod.mk.injEq] at h
        obtain ⟨hs, -⟩ := h
        rw [← hs]
        show SQLiteDB.getNode _ cid = _
        unfold SQLiteDB.getNode
        rw [find?_map_id_pres _ _
          (fun n => by by_cases hn : n.id = id <;> simp [hn, SQLiteDB.applyUpdates]) cid]
        cases hg : List.find? (fun n => n.id = cid) s.nodes with
        | none => rfl
        | some row =>
          have hrid : row.id = cid := by simpa using List.find?_some hg
          have : ¬ row.id = id := by rw [hrid]; exact hne
          simp [this]

/-- A context-only `updateNode` on a present row always succeeds. -/
theorem updateNode_context_ok (s : Store) (id : String) (ctx : String) (n : Node)
    (h : SQLiteDB.getNode s id = some n) :
    ∃ s' res, SQLiteDB.updateNode s id
      { content := none, context := some ctx, type := none, parent_id := none } =
      .ok (s', res) := by
  unfold SQLiteDB.updateNode
  rw [if_neg (by simp)]
  rw [h]
  exact ⟨_, _, rfl⟩

/-! Claim theorems. -/

/-- C1 (counterexample): in the scenario create A (context "alpha") → branch
B from A → addContext(B, "beta", "user"), `getInheritedContext(B)` does not
return "alpha\n\nbeta" — the walk re-collects A's context in front of B's
seeded copy. -/
theorem c1_counterexample :
    DBM.getInheritedContext e2eState3 "B" ≠ "alpha\n\nbeta" := by decide

/-- C1 (amended): in that scenario `getInheritedContext(B)` returns
"alpha\n\nalpha\n\nbeta": B's own context is the seeded "alpha" plus the
appended "beta", and the walk prepends parent A's "alpha" once more. -/
theorem c1_amended_result :
    DBM.getInheritedContext e2eState3 "B" = "alpha\n\nalpha\n\nbeta" ∧
    (SQLiteDB.getNode e2eState3.sql "B").map Node.context = some "alpha\n\nbeta" ∧
    (SQLiteDB.getNode e2eState3.sql "A").map Node.context = some "alpha" := by
  refine ⟨by decide, by decide, by decide⟩

/-- C2: along a parent chain r→a→b→c, `getInheritedContext(c)` is the
root-first blank-line join of the chain's own contexts, with empty contexts
skipped. -/
theorem c2_inherited_context_order (s : Store) (r a b c : Node)
    (hr : SQLiteDB.getNode s r.id = some r)
    (ha : SQLiteDB.getNode s a.id = some a)
    (hb : SQLiteDB.getNode s b.id = some b)
    (hc : SQLiteDB.getNode s c.id = some c)
    (hrp : r.parent_id = none)
    (hap : a.parent_id = some r.id)
    (hbp : b.parent_id = some a.id)
    (hcp : c.parent_id = some b.id)
    (hrid : r.id ≠ "") (haid : a.id ≠ "") (hbid : b.id ≠ "")
    (hra : r.id ≠ a.id) (hrb : r.id ≠ b.id) (hrc : r.id ≠ c.id)
    (hab : a.id ≠ b.id) (hac : a.id ≠ c.id) (hbc : b.id ≠ c.id) :
    SQLiteDB.getInheritedContext s c.id =
      String.intercalate "\n\n"
        (List.filter (fun t => t ≠ "") [r.context, a.context, b.context, c.context]) := by
  have hlen : 4 ≤ s.nodes.length := by
    have ne1 : r ≠ a := fun h => hra (by rw [h])
    have ne2 : r ≠ b := fun h => hrb (by rw [h])
    have ne3 : r ≠ c := fun h => hrc (by rw [h])
    have ne4 : a ≠ b := fun h => hab (by rw [h])
    have ne5 : a ≠ c := fun h => hac (by rw [h])
    have ne6 : b ≠ c := fun h => hbc (by rw [h])
    have hnodup : List.Nodup [r, a, b, c] := by
      simp [List.nodup_cons, ne1, ne2, ne3, ne4, ne5, ne6]
    have hsub : [r, a, b, c] ⊆ s.nodes := by
      intro x hx
      simp only [List.mem_cons, List.not_mem_nil, or_false] at hx
      rcases hx with rfl | rfl | rfl | rfl
      · exact (getNode_eq_some hr).1
      · exact (getNode_eq_some ha).1
      · exact (getNode_eq_some hb).1
      · exact (getNode_eq_some hc).1
    simpa using (hnodup.subperm hsub).length_le
  obtain ⟨m, hm⟩ : ∃ m, s.nodes.length = m + 4 := ⟨s.nodes.length - 4, by omega⟩
  have hnextc : (match strOrNull c.parent_id with
      | some p => SQLiteDB.getNode s p
      | none => none) = some b := by
    rw [hcp]; simp [strOrNull, hbid, hb]
  have hnextb : (match strOrNull b.parent_id with
      | some p => SQLiteDB.getNode s p
      | none => none) = some a := by
    rw [hbp]; simp [strOrNull, haid, ha]
  have hnexta : (match strOrNull a.parent_id with
      | some p => SQLiteDB.getNode s p
      | none => none) = some r := by
    rw [hap]; simp [strOrNull, hrid, hr]
  have hnextr : (match strOrNull r.parent_id with
      | some p => SQLiteDB.getNode s p
      | none => none) = none := by
    rw [hrp]; rfl
  unfold SQLiteDB.getInheritedContext
  rw [hc]
  dsimp only
  rw [if_neg (by rw [hcp]; simp [strOrNull, hbid])]
  rw [hm]
  rw [show m + 4 + 1 = (m + 3) + 1 + 1 from by omega]
  rw [walkChain_succ_some, if_neg (List.not_mem_nil c.id), hnextc]
  rw [show m + 3 + 1 = (m + 2) + 1 + 1 from by omega]
  rw [walkChain_succ_some, if_neg (by simp [hbc]), hnextb]
  rw [show m + 2 + 1 = (m + 1) + 1 + 1 from by omega]
  rw [walkChain_succ_some, if_neg (by simp [hab, hac]), hnexta]
  rw [show m + 1 + 1 = m + 1 + 1 from rfl]
  rw [walkChain_succ_some, if_neg (by simp [hra, hrb, hrc]), hnextr]
  rw [walkChain_succ_none]
  congr 1
  by_cases h1 : r.context = "" <;> by_cases h2 : a.context = "" <;>
    by_cases h3 : b.context = "" <;> by_cases h4 : c.context = "" <;>
    simp [h1, h2, h3, h4]

/-- C2 witness: the chain order at the concrete store r→a→b→c. -/
theorem c2_witness :
    SQLiteDB.getInheritedContext c2Store (mkNode "c" "default" (some "b") "C").id =
      String.intercalate "\n\n"
        (List.filter (fun t => t ≠ "")
          [(mkNode "r" "default" none "R").context,
           (mkNode "a" "default" (some "r") "A").context,
           (mkNode "b" "default" (some "a") "B").context,
           (mkNode "c" "default" (some "b") "C").context]) :=
  c2_inherited_context_order c2Store
    (mkNode "r" "default" none "R") (mkNode "a" "default" (some "r") "A")
    (mkNode "b" "default" (some "a") "B") (mkNode "c" "default" (some "b") "C")
    rfl rfl rfl rfl rfl rfl rfl rfl
    (by decide) (by decide) (by decide)
    (by decide) (by decide) (by decide)
    (by decide) (by decide) (by decide)

/-- C3: `getInheritedContext` is cycle-safe — the visited-set walk stabilizes
within `s.nodes.length + 1` iterations on every store (so the source's
unbounded loop terminates with that finite value), and on the 2-cycle X→Y→X
it returns the finite strings below, stopping at the first revisited node. -/
theorem c3_cycle_safety :
    (∀ (s : Store) (nodeId : String) (k : Nat),
      SQLiteDB.walkChain s (s.nodes.length + 1 + k) [] [] (SQLiteDB.getNode s nodeId) =
      SQLiteDB.walkChain s (s.nodes.length + 1) [] [] (SQLiteDB.getNode s nodeId)) ∧
    SQLiteDB.getInheritedContext cycleStore "X" = "y-ctx\n\nx-ctx" ∧
    SQLiteDB.getInheritedContext cycleStore "Y" = "x-ctx\n\ny-ctx" := by
  exact ⟨getInheritedContext_fuel_stable, by decide, by decide⟩

/-- C4: `branchNode` returns absent for a missing parent; otherwise it
creates a child whose context is `getInheritedContext(parent)` computed at
branch time, with `parent_id = parentId` and the parent's `board_id`; a later
context update of the parent leaves the child's row (hence its seeded
context) unchanged. -/
theorem c4_branch_snapshot :
    (∀ (s : Store) (pid : String) (sp : SQLiteDB.BranchSpec),
      SQLiteDB.getNode s pid = none →
      SQLiteDB.branchNode s pid sp = .ok (s, none)) ∧
    (∀ (s : Store) (pid : String) (sp : SQLiteDB.BranchSpec) (parent : Node)
       (newCtx : String),
      SQLiteDB.getNode s pid = some parent →
      SQLiteDB.getNode s sp.id = none →
      parent.board_id ≠ "" →
      ∃ s₁ child,
        SQLiteDB.branchNode s pid sp = .ok (s₁, some child) ∧
        child.context = SQLiteDB.getInheritedContext s pid ∧
        child.parent_id = some pid ∧
        child.board_id = parent.board_id ∧
        SQLiteDB.getNode s₁ sp.id = some child ∧
        (∃ s₂ res, SQLiteDB.updateNode s₁ pid
            { content := none, context := some newCtx, type := none, parent_id := none } =
            .ok (s₂, res)) ∧
        (∀ s₂ res, SQLiteDB.updateNode s₁ pid
            { content := none, context := some newCtx, type := none, parent_id := none } =
            .ok (s₂, res) →
          SQLiteDB.getNode s₂ sp.id = some child)) := by
  constructor
  · intro s pid sp h
    unfold SQLiteDB.branchNode
    rw [h]
  · intro s pid sp parent newCtx hp hfresh hbne
    obtain ⟨row, hcs, hrid, hrctx, hrpar, hrb⟩ :=
      createNode_eq_ok s
        { id := sp.id, type := sp.type, content := sp.content,
          context := SQLiteDB.getInheritedContext s pid,
          parent_id := some pid, board_id := parent.board_id }
        hfresh (by dsimp only; rw [hp]; rfl)
    have hne : sp.id ≠ pid := by
      intro he
      rw [he, hp] at hfresh
      cases hfresh
    refine ⟨{ s with nodes := s.nodes ++ [row], clock := s.clock + 1 }, row,
      ?_, hrctx, hrpar, ?_, ?_, ?_, ?_⟩
    · unfold SQLiteDB.branchNode
      rw [hp]
      dsimp only
      rw [hcs]
    · rw [hrb]
      simp [strOr, hbne]
    · exact getNode_append rfl hfresh hrid
    · exact updateNode_context_ok _ pid newCtx parent (getNode_append_found rfl hp)
    · intro s₂ res hupd
      rw [getNode_updateNode_other hupd hne]
      exact getNode_append rfl hfresh hrid

/-- C4 witness: branch D from parent P (context "P1") in the concrete store,
then update P's context; the absent-parent case at id "missing". -/
theorem c4_witness :
    SQLiteDB.branchNode c4Store "missing"
      { id := "D", type := "conversation", content := "" } = .ok (c4Store, none) ∧
    (∃ s₁ child,
      SQLiteDB.branchNode c4Store "P"
        { id := "D", type := "conversation", content := "" } = .ok (s₁, some child) ∧
      child.context = SQLiteDB.getInheritedContext c4Store "P" ∧
      child.parent_id = some "P" ∧
      child.board_id = (mkNode "P" "default" none "P1").board_id ∧
      SQLiteDB.getNode s₁ "D" = some child ∧
      (∃ s₂ res, SQLiteDB.updateNode s₁ "P"
          { content := none, context := some "P1-edited", type := none, parent_id := none } =
          .ok (s₂, res)) ∧
      (∀ s₂ res, SQLiteDB.updateNode s₁ "P"
          { content := none, context := some "P1-edited", type := none, parent_id := none } =
          .ok (s₂, res) →
        SQLiteDB.getNode s₂ "D" = some child)) :=
  ⟨c4_branch_snapshot.1 c4Store "missing"
      { id := "D", type := "conversation", content := "" } rfl,
   c4_branch_snapshot.2 c4Store "P"
      { id := "D", type := "conversation", content := "" }
      (mkNode "P" "default" none "P1") "P1-edited" rfl rfl (by decide)⟩

/-- C5: deleting a non-default board removes, in one transaction, every node
on the board, every edge touching one of its nodes, every context entry of
one of its nodes, and the board row itself, while boards other than it, nodes
on other boards (up to parent nulling of cross-board children), context
entries of off-board nodes and edges between off-board nodes all survive. -/
theorem c5_delete_board_cascade (s : Store) (bid : String) (board : Board)
    (hne : bid ≠ "default") (hb : SQLiteDB.getBoard s bid = some board) :
    ∃ s', SQLiteDB.deleteBoard s bid = .ok (s', true) ∧
      (∀ n ∈ s.nodes, n.board_id = bid → n ∉ s'.nodes) ∧
      (∀ e ∈ s.edges,
        (∃ n ∈ s.nodes, n.board_id = bid ∧ (e.source_id = n.id ∨ e.target_id = n.id)) →
        e ∉ s'.edges) ∧
      (∀ en ∈ s.chain,
        (∃ n ∈ s.nodes, n.board_id = bid ∧ en.node_id = n.id) → en ∉ s'.chain) ∧
      (∀ b ∈ s.boards, b.id = bid → b ∉ s'.boards) ∧
      (∀ b ∈ s.boards, b.id ≠ bid → b ∈ s'.boards) ∧
      (∀ n ∈ s.nodes, n.board_id ≠ bid →
        ∃ n' ∈ s'.nodes, n'.id = n.id ∧ n'.context = n.context ∧
          n'.board_id = n.board_id) ∧
      (∀ en ∈ s.chain,
        (∀ n ∈ s.nodes, n.id = en.node_id → n.board_id ≠ bid) → en ∈ s'.chain) ∧
      (∀ e ∈ s.edges,
        (∀ n ∈ s.nodes, (e.source_id = n.id ∨ e.target_id = n.id) → n.board_id ≠ bid) →
        e ∈ s'.edges) := by
  refine ⟨{ SQLiteDB.deleteBoardData s bid with
            boards := (SQLiteDB.deleteBoardData s bid).boards.filter
              (fun b => b.id ≠ bid) },
          ?_, ?_, ?_, ?_, ?_, ?_, ?_, ?_, ?_⟩
  · unfold SQLiteDB.deleteBoard
    rw [if_neg hne, hb]
  · intro n hn hnb hmem
    simp only [SQLiteDB.deleteBoardData, List.mem_map, List.mem_filter] at hmem
    obtain ⟨x, ⟨-, hxb⟩, hfx⟩ := hmem
    have : x.board_id = n.board_id := by
      cases hx : x.parent_id <;> rw [hx] at hfx <;> simp only at hfx
      · rw [← hfx]
      · split at hfx <;> rw [← hfx]
    rw [hnb] at this
    simp [this] at hxb
  · intro e he hex hmem
    simp only [SQLiteDB.deleteBoardData, List.mem_filter] at hmem
    obtain ⟨x, hx, hxb, hor⟩ := hex
    have hxin : x.id ∈ (s.nodes.filter (fun n => n.board_id = bid)).map (fun n => n.id) := by
      simp only [List.mem_map, List.mem_filter]
      exact ⟨x, ⟨hx, by simp [hxb]⟩, rfl⟩
    rcases hor with hsrc | htgt
    · rw [← hsrc] at hxin
      simp [hxin] at hmem
    · rw [← htgt] at hxin
      simp [hxin] at hmem
  · intro en hen hex hmem
    simp only [SQLiteDB.deleteBoardData, List.mem_filter] at hmem
    obtain ⟨x, hx, hxb, hid⟩ := hex
    have hxin : x.id ∈ (s.nodes.filter (fun n => n.board_id = bid)).map (fun n => n.id) := by
      simp only [List.mem_map, List.mem_filter]
      exact ⟨x, ⟨hx, by simp [hxb]⟩, rfl⟩
    rw [← hid] at hxin
    simp [hxin] at hmem
  · intro b hbm hbid hmem
    simp only [SQLiteDB.deleteBoardData, List.mem_filter] at hmem
    simp [hbid] at hmem
  · intro b hbm hbid
    simp only [SQLiteDB.deleteBoardData, List.mem_filter]
    exact ⟨hbm, by simp [hbid]⟩
  · intro n hn hnb
    simp only [SQLiteDB.deleteBoardData, List.mem_map, List.mem_filter]
    refine ⟨(match n.parent_id with
      | some p =>
        if p ∈ (s.nodes.filter (fun m => m.board_id = bid)).map (fun m => m.id) then
          { n with parent_id := none } else n
      | none => n), ⟨n, ⟨hn, by simp [hnb]⟩, rfl⟩, ?_⟩
    cases hx : n.parent_id with
    | none => exact ⟨rfl, rfl, rfl⟩
    | some p =>
      dsimp only
      split <;> exact ⟨rfl, rfl, rfl⟩
  · intro en hen hall
    simp only [SQLiteDB.deleteBoardData, List.mem_filter]
    refine ⟨hen, ?_⟩
    simp only [decide_eq_true_eq, List.mem_map, List.mem_filter]
    rintro ⟨x, ⟨hx, hxb⟩, hid⟩
    exact hall x hx hid (by simpa using hxb)
  · intro e he hall
    simp only [SQLiteDB.deleteBoardData, List.mem_filter]
    refine ⟨he, ?_⟩
    simp only [decide_eq_true_eq, List.mem_map, List.mem_filter]
    constructor
    · rintro ⟨x, ⟨hx, hxb⟩, hid⟩
      exact hall x hx (Or.inl hid.symm) (by simpa using hxb)
    · rintro ⟨x, ⟨hx, hxb⟩, hid⟩
      exact hall x hx (Or.inr hid.symm) (by simpa using hxb)

/-- C5 witness: deleting board B from the concrete store removes N1, N2, the
edge N1→N2, the context entry on N1 and the board row, and keeps the default
board with its node D. -/
theorem c5_witness :
    ∃ s', SQLiteDB.deleteBoard c5Store "B" = .ok (s', true) ∧
      (∀ n ∈ c5Store.nodes, n.board_id = "B" → n ∉ s'.nodes) ∧
      (∀ e ∈ c5Store.edges,
        (∃ n ∈ c5Store.nodes, n.board_id = "B" ∧
          (e.source_id = n.id ∨ e.target_id = n.id)) →
        e ∉ s'.edges) ∧
      (∀ en ∈ c5Store.chain,
        (∃ n ∈ c5Store.nodes, n.board_id = "B" ∧ en.node_id = n.id) →
        en ∉ s'.chain) ∧
      (∀ b ∈ c5Store.boards, b.id = "B" → b ∉ s'.boards) ∧
      (∀ b ∈ c5Store.boards, b.id ≠ "B" → b ∈ s'.boards) ∧
      (∀ n ∈ c5Store.nodes, n.board_id ≠ "B" →
        ∃ n' ∈ s'.nodes, n'.id = n.id ∧ n'.context = n.context ∧
          n'.board_id = n.board_id) ∧
      (∀ en ∈ c5Store.chain,
        (∀ n ∈ c5Store.nodes, n.id = en.node_id → n.board_id ≠ "B") →
        en ∈ s'.chain) ∧
      (∀ e ∈ c5Store.edges,
        (∀ n ∈ c5Store.nodes, (e.source_id = n.id ∨ e.target_id = n.id) →
          n.board_id ≠ "B") →
        e ∈ s'.edges) :=
  c5_delete_board_cascade c5Store "B" c5Board (by decide) rfl

/-- C6: deleting the distinguished default board or default project throws a
typed error before touching any table, for every store state. -/
theorem c6_default_delete_protected (s : Store) :
    SQLiteDB.deleteBoard s "default" = .error "Cannot delete the default board" ∧
    SQLiteDB.deleteProject s "default" = .error "Cannot delete the default project" := by
  constructor <;> rfl

/-- C8 (counterexample): with the Semantic Index enabled and the embedding
provider raising, `createNode` with non-empty context returns an explicit
error and emits no event, but the node row already written to the Structured
Store remains — a half-written entity survives the failed mutation. -/
theorem c8_counterexample :
    (DBM.createNode embUnavailable c8State c8Spec).1 =
      .error "embedding provider unavailable" ∧
    (DBM.createNode embUnavailable c8State c8Spec).2.2 = [] ∧
    SQLiteDB.getNode (DBM.createNode embUnavailable c8State c8Spec).2.1.sql "n1" ≠ none := by
  refine ⟨rfl, rfl, by decide⟩

/-- C7: every successful Graph Manager `createNode` emits exactly one
`node_created` event whose payload is the returned entity (hence carries its
id) and whose boardId is that entity's board_id, and the final store contains
the written row; `updateNode` on a nonexistent id emits no event and returns
null. -/
theorem c7_mutation_event_emission :
    (∀ (emb : Emb) (st : DMState) (node : DMNodeSpec) (created : Node),
      (DBM.createNode emb st node).1 = .ok created →
      (DBM.createNode emb st node).2.2 =
        [{ event := "node_created", data := .node created, boardId := created.board_id }] ∧
      SQLiteDB.getNode (DBM.createNode emb st node).2.1.sql created.id = some created) ∧
    (∀ (emb : Emb) (st : DMState) (id : String) (u : DMNodeUpdates),
      DBM.getNode st id = none →
      (DBM.updateNode emb st id u).2.2 = [] ∧
      (DBM.updateNode emb st id u).1 = .ok none) := by
  constructor
  · intro emb st node created hok
    simp only [DBM.createNode] at hok ⊢
    rcases hc : SQLiteDB.createNode st.sql
        { id := node.id, type := node.type, content := node.content,
          context := strOr node.context "", parent_id := strOrNull node.parent_id,
          board_id := strOr node.board_id "default" } with e | p
    · rw [hc] at hok
      simp at hok
    · obtain ⟨sql', row⟩ := p
      rw [hc] at hok
      have hco := createNode_ok hc
      have hb : row.board_id = strOr node.board_id "default" := by
        rw [hco.2.1, strOr_default_idem]
      rcases hoc : strOrNull node.context with _ | text
      · rw [hoc] at hok
        dsimp only at hok ⊢
        simp only [Except.ok.injEq] at hok
        subst hok
        refine ⟨by rw [hb], ?_⟩
        rw [hco.1]
        exact getNode_append hco.2.2.2.2.1 hco.2.2.2.2.2 hco.1
      · rw [hoc] at hok
        dsimp only at hok ⊢
        rcases hl : LanceDB.addContext emb st.lance
            { nodeId := node.id, boardId := some (strOr node.board_id "default"),
              text := text, source := "user" } with el | lance'
        · rw [hl] at hok
          simp at hok
        · rw [hl] at hok
          dsimp only at hok ⊢
          simp only [Except.ok.injEq] at hok
          subst hok
          refine ⟨by rw [hb], ?_⟩
          rw [hco.1]
          exact getNode_append hco.2.2.2.2.1 hco.2.2.2.2.2 hco.1
  · intro emb st id u hmiss
    have hmiss' : SQLiteDB.getNode st.sql id = none := hmiss
    have hup : SQLiteDB.updateNode st.sql id u.toSql = .ok (st.sql, none) := by
      unfold SQLiteDB.updateNode
      split
      · rw [hmiss']
      · rw [hmiss']
    simp only [DBM.updateNode]
    rw [hup]
    rcases strOrNull u.context with _ | t <;> exact ⟨rfl, rfl⟩

/-- C7 witness: concrete createNode and missing-id updateNode runs. -/
theorem c7_witness :
    ((DBM.createNode embUnavailable c7State c7Spec).2.2 =
      [{ event := "node_created", data := .node (mkNode "W" "default" none ""),
         boardId := (mkNode "W" "default" none "").board_id }] ∧
     SQLiteDB.getNode (DBM.createNode embUnavailable c7State c7Spec).2.1.sql
       (mkNode "W" "default" none "").id = some (mkNode "W" "default" none "")) ∧
    ((DBM.updateNode embUnavailable c7State "ghost" c7Upd).2.2 = [] ∧
     (DBM.updateNode embUnavailable c7State "ghost" c7Upd).1 = .ok none) :=
  ⟨c7_mutation_event_emission.1 embUnavailable c7State c7Spec
      (mkNode "W" "default" none "") rfl,
   c7_mutation_event_emission.2 embUnavailable c7State "ghost" c7Upd rfl⟩

/-- C8 (amended): a Graph Manager `createNode` with truthy context that fails
at the enabled Semantic Index's embedding call returns an explicit error and
emits no event, but the Structured Store row written before the failure
remains, and the Semantic Index itself is unchanged. -/
theorem c8_failed_create_leaves_row (emb : Emb) (st : DMState) (node : DMNodeSpec)
    (text err : String)
    (hctx : strOrNull node.context = some text)
    (hon : st.lance.enabled = true)
    (hemb : emb text = .error err)
    (hfresh : SQLiteDB.getNode st.sql node.id = none)
    (hpar : strOrNull node.parent_id = none) :
    (DBM.createNode emb st node).1 = .error err ∧
    (DBM.createNode emb st node).2.2 = [] ∧
    (SQLiteDB.getNode (DBM.createNode emb st node).2.1.sql node.id).isSome = true ∧
    (DBM.createNode emb st node).2.1.lance = st.lance := by
  obtain ⟨row, hcs, hrid, hrctx, hrpar, hrb⟩ :=
    createNode_eq_ok st.sql
      { id := node.id, type := node.type, content := node.content,
        context := strOr node.context "", parent_id := strOrNull node.parent_id,
        board_id := strOr node.board_id "default" } hfresh (by rw [hpar])
  have hadd : LanceDB.addContext emb st.lance
      { nodeId := node.id, boardId := some (strOr node.board_id "default"),
        text := text, source := "user" } = .error err := by
    unfold LanceDB.addContext LanceDB.generateEmbedding
    rw [hon]
    simp [hemb]
  simp only [DBM.createNode]
  rw [hcs, hctx]
  dsimp only
  rw [hadd]
  dsimp only
  refine ⟨rfl, rfl, ?_, rfl⟩
  rw [getNode_append (s := st.sql) rfl hfresh hrid]
  rfl

/-- C8 witness: the amended behavior at the concrete failed-embedding run. -/
theorem c8_amended_witness :
    (DBM.createNode embUnavailable c8State c8Spec).1 =
      .error "embedding provider unavailable" ∧
    (DBM.createNode embUnavailable c8State c8Spec).2.2 = [] ∧
    (SQLiteDB.getNode (DBM.createNode embUnavailable c8State c8Spec).2.1.sql
      "n1").isSome = true ∧
    (DBM.createNode embUnavailable c8State c8Spec).2.1.lance = c8State.lance :=
  c8_failed_create_leaves_row embUnavailable c8State c8Spec "hello"
    "embedding provider unavailable" rfl rfl rfl rfl rfl

/-- C9: with no embedding provider credential the Semantic Index is inert —
`addContext` succeeds without storing anything and `search`/`searchInNode`
return the empty list, for every state, query and filter. -/
theorem c9_semantic_index_disabled_noop (emb : Emb) (l : LanceState)
    (h : l.enabled = false) (c : LanceDB.CtxSpec) (nodeId query : String)
    (limit : Nat) (boardId : Option String) :
    LanceDB.addContext emb l c = .ok l ∧
    LanceDB.search emb l query limit boardId = .ok [] ∧
    LanceDB.searchInNode emb l nodeId query limit = .ok [] := by
  unfold LanceDB.addContext LanceDB.search LanceDB.searchInNode
  simp [h]

/-- C10: the event-emitting DatabaseManager (part_010) and the plain one
(part_012) are observationally equivalent apart from event emission: on every
starting state, every modelled operation returns the same result and leaves
the same combined Structured Store + Semantic Index state; the emitting
variant differs only by its event list. -/
theorem c10_manager_equivalence (emb : Emb) (st : DMState) :
    (∀ node, ((DBM.createNode emb st node).1, (DBM.createNode emb st node).2.1) =
      DBP.createNode emb st node) ∧
    (∀ id u, ((DBM.updateNode emb st id u).1, (DBM.updateNode emb st id u).2.1) =
      DBP.updateNode emb st id u) ∧
    (∀ id, ((DBM.deleteNode st id).1, (DBM.deleteNode st id).2.1) =
      DBP.deleteNode st id) ∧
    (∀ e, ((DBM.createEdge st e).1, (DBM.createEdge st e).2.1) =
      DBP.createEdge st e) ∧
    (∀ id, ((DBM.deleteEdge st id).1, (DBM.deleteEdge st id).2.1) =
      DBP.deleteEdge st id) ∧
    (∀ nodeId text source,
      ((DBM.addContext emb st nodeId text source).1,
       (DBM.addContext emb st nodeId text source).2.1) =
      DBP.addContext emb st nodeId text source) ∧
    (∀ pid sp, ((DBM.branchNode emb st pid sp).1, (DBM.branchNode emb st pid sp).2.1) =
      DBP.branchNode emb st pid sp) ∧
    (∀ id name, ((DBM.createBoard st id name).1, (DBM.createBoard st id name).2.1) =
      DBP.createBoard st id name) ∧
    (∀ id, ((DBM.deleteBoard st id).1, (DBM.deleteBoard st id).2.1) =
      DBP.deleteBoard st id) ∧
    (∀ bId x y zoom, (DBM.updateBoardViewport st bId x y zoom).1 =
      DBP.updateBoardViewport st bId x y zoom) ∧
    (∀ k v, (DBM.setSetting st k v).1 = DBP.setSetting st k v) ∧
    (∀ id, DBM.getNode st id = DBP.getNode st id) ∧
    (∀ b, DBM.getAllNodes st b = DBP.getAllNodes st b) ∧
    (∀ id, DBM.getEdge st id = DBP.getEdge st id) ∧
    (∀ nid, DBM.getEdgesForNode st nid = DBP.getEdgesForNode st nid) ∧
    (∀ b, DBM.getAllEdges st b = DBP.getAllEdges st b) ∧
    (∀ nid, DBM.getContextForNode st nid = DBP.getContextForNode st nid) ∧
    (∀ nid, DBM.getInheritedContext st nid = DBP.getInheritedContext st nid) ∧
    (∀ q lim b, DBM.searchContext emb st q lim b = DBP.searchContext emb st q lim b) ∧
    (∀ nid q lim, DBM.searchInNode emb st nid q lim = DBP.searchInNode emb st nid q lim) ∧
    (∀ pid, DBM.getChildNodes st pid = DBP.getChildNodes st pid) ∧
    (∀ nid, DBM.getConversationPath st nid = DBP.getConversationPath st nid) ∧
    (∀ id, DBM.getBoard st id = DBP.getBoard st id) ∧
    DBM.getAllBoards st = DBP.getAllBoards st ∧
    (∀ id, DBM.getBoardViewport st id = DBP.getBoardViewport st id) ∧
    (∀ k, DBM.getSetting st k = DBP.getSetting st k) ∧
    DBM.getAllSettings st = DBP.getAllSettings st ∧
    (∀ b, DBM.exportGraph st b = DBP.exportGraph st b) := by
  refine ⟨?_, ?_, ?_, ?_, ?_, ?_, ?_, ?_, ?_, ?_, ?_, ?_, ?_, ?_, ?_, ?_, ?_, ?_,
          ?_, ?_, ?_, ?_, ?_, ?_, ?_, ?_, ?_, ?_⟩
  · intro node
    simp only [DBM.createNode, DBP.createNode]
    repeat' (first | rfl | split)
  · intro id u
    simp only [DBM.updateNode, DBP.updateNode]
    repeat' (first | rfl | split)
  · intro id
    simp only [DBM.deleteNode, DBP.deleteNode]
  · intro e
    simp only [DBM.createEdge, DBP.createEdge]
    repeat' (first | rfl | split)
  · intro id
    simp only [DBM.deleteEdge, DBP.deleteEdge]
  · intro nodeId text source
    simp only [DBM.addContext, DBP.addContext]
    repeat' (first | rfl | split)
  · intro pid sp
    simp only [DBM.branchNode, DBP.branchNode]
    repeat' (first | rfl | split)
  · intro id name
    simp only [DBM.createBoard, DBP.createBoard]
    repeat' (first | rfl | split)
  · intro id
    simp only [DBM.deleteBoard, DBP.deleteBoard]
    repeat' (first | rfl | split)
  · intro bId x y zoom; rfl
  · intro k v; rfl
  · intro id; rfl
  · intro b; rfl
  · intro id; rfl
  · intro nid; rfl
  · intro b; rfl
  · intro nid; rfl
  · intro nid; rfl
  · intro q lim b; rfl
  · intro nid q lim; rfl
  · intro pid; rfl
  · intro nid; rfl
  · intro id; rfl
  · rfl
  · intro id; rfl
  · intro k; rfl
  · rfl
  · intro b; rfl

/-- C9 witness: the disabled-index no-op behavior at a concrete state. -/
theorem c9_witness :
    LanceDB.addContext embUnavailable disabledLance
      { nodeId := "n", boardId := none, text := "t", source := "user" } = .ok disabledLance ∧
    LanceDB.search embUnavailable disabledLance "q" 5 none = .ok [] ∧
    LanceDB.searchInNode embUnavailable disabledLance "n" "q" 5 = .ok [] :=
  c9_semantic_index_disabled_noop embUnavailable disabledLance rfl
    { nodeId := "n", boardId := none, text := "t", source := "user" } "n" "q" 5 none

end GetSticky
